import Mathlib

/-!
Shallow embedding of the iBIT MicroPython library (`src/iBIT.py`).

Every public operation of the `iBIT` class is modelled as a pure function
returning the list of hardware events it performs, in order: digital pin
writes, analog (PWM duty) writes, PWM period configuration, and I2C
transactions.  `ReadADC` additionally returns the integer value the Python
function returns; the two bytes delivered by the I2C read are parameters of
the model.  Python `//` on integers is floor division, embedded as
`Int.fdiv`.
-/

/-- A hardware side effect performed by the library: a digital pin write,
an analog (PWM duty) write, a PWM period configuration, or an I2C
write/read transaction (`rep` is the repeated-start flag). -/
inductive Event where
  | writeDigital (pin : Nat) (v : Nat)
  | writeAnalog (pin : Nat) (duty : Int)
  | setAnalogPeriodUs (pin : Nat) (us : Nat)
  | i2cWrite (addr : Nat) (data : List Int) (rep : Bool)
  | i2cRead (addr : Nat) (n : Nat) (rep : Bool)
deriving DecidableEq

/-- Module-level constant `FORWARD = 0`. -/
def FORWARD : Int := 0

/-- Module-level constant `BACKWARD = 1`. -/
def BACKWARD : Int := 1

/-- Module-level constant `TURN_LEFT = 0`. -/
def TURN_LEFT : Int := 0

/-- Module-level constant `TURN_RIGHT = 1`. -/
def TURN_RIGHT : Int := 1

/-- Module-level constant `SPIN_LEFT = 0`. -/
def SPIN_LEFT : Int := 0

/-- Module-level constant `SPIN_RIGHT = 1`. -/
def SPIN_RIGHT : Int := 1

/-- Module-level constant `SV1 = 0`. -/
def SV1 : Int := 0

/-- Module-level constant `SV2 = 1`. -/
def SV2 : Int := 1

/-- Module-level constant `M1 = 0`. -/
def M1 : Int := 0

/-- Module-level constant `M2 = 1`. -/
def M2 : Int := 1

/-- ADC command byte `ADC0 = 132`. -/
def ADC0 : Int := 132

/-- ADC command byte `ADC1 = 196`. -/
def ADC1 : Int := 196

/-- ADC command byte `ADC2 = 148`. -/
def ADC2 : Int := 148

/-- ADC command byte `ADC3 = 212`. -/
def ADC3 : Int := 212

/-- ADC command byte `ADC4 = 164`. -/
def ADC4 : Int := 164

/-- ADC command byte `ADC5 = 228`. -/
def ADC5 : Int := 228

/-- ADC command byte `ADC6 = 180`. -/
def ADC6 : Int := 180

/-- ADC command byte `ADC7 = 244`. -/
def ADC7 : Int := 244

/-- I2C address `IBIT_V1 = 0x48`. -/
def IBIT_V1 : Nat := 0x48

/-- I2C address `IBIT_V2 = 0x4A`. -/
def IBIT_V2 : Nat := 0x4A

namespace iBIT

/-- `iBIT.__clamp(x, lo, hi)`. -/
def clamp (x lo hi : Int) : Int :=
  if x < lo then lo
  else if x > hi then hi
  else x

/-- `iBIT.__map_0_100_to_0_1023(speed_percent)`: map 0..100% to a
0..1023 PWM duty, clamping first; Python `//` is floor division. -/
def map_0_100_to_0_1023 (speed_percent : Int) : Int :=
  (clamp speed_percent 0 100 * 1023).fdiv 100

/-- The spec names the speed-to-duty mapping `speedToDuty`; in the code it
is `iBIT.__map_0_100_to_0_1023`. -/
def speedToDuty (s : Int) : Int := map_0_100_to_0_1023 s

/-- `iBIT.__servo_write_deg(p, deg, us_min, us_max)`: clamp the angle to
0..180, set a 20 ms PWM period, interpolate the pulse width between
`us_min` and `us_max`, convert to a 0..1023 duty and write it. -/
def servo_write_deg (p : Nat) (deg us_min us_max : Int) : List Event :=
  let d := clamp deg 0 180
  let period_us : Int := 20000
  let pulse_us := us_min + ((us_max - us_min) * d).fdiv 180
  let duty := clamp ((pulse_us * 1023).fdiv period_us) 0 1023
  [Event.setAnalogPeriodUs p 20000, Event.writeAnalog p duty]

/-- `iBIT.__servo_stop(p)`: zero analog duty, then force the pin low. -/
def servo_stop (p : Nat) : List Event :=
  [Event.writeAnalog p 0, Event.writeDigital p 0]

/-- `iBIT.Motor(direction, speed)`. -/
def Motor (direction speed : Int) : List Event :=
  let motorspeed := map_0_100_to_0_1023 speed
  if direction = FORWARD then
    [Event.writeDigital 13 1, Event.writeAnalog 14 motorspeed,
     Event.writeDigital 15 0, Event.writeAnalog 16 motorspeed]
  else if direction = BACKWARD then
    [Event.writeDigital 13 0, Event.writeAnalog 14 motorspeed,
     Event.writeDigital 15 1, Event.writeAnalog 16 motorspeed]
  else []

/-- `iBIT.Motor2(direction, speed1, speed2)`. -/
def Motor2 (direction speed1 speed2 : Int) : List Event :=
  let ms1 := map_0_100_to_0_1023 speed1
  let ms2 := map_0_100_to_0_1023 speed2
  if direction = FORWARD then
    [Event.writeDigital 13 1, Event.writeAnalog 14 ms1,
     Event.writeDigital 15 0, Event.writeAnalog 16 ms2]
  else if direction = BACKWARD then
    [Event.writeDigital 13 0, Event.writeAnalog 14 ms1,
     Event.writeDigital 15 1, Event.writeAnalog 16 ms2]
  else []

/-- `iBIT.Turn(turn_dir, speed)`. -/
def Turn (turn_dir speed : Int) : List Event :=
  let motorspeed := map_0_100_to_0_1023 speed
  if turn_dir = TURN_LEFT then
    [Event.writeDigital 13 1, Event.writeAnalog 14 0,
     Event.writeDigital 15 0, Event.writeAnalog 16 motorspeed]
  else if turn_dir = TURN_RIGHT then
    [Event.writeDigital 13 1, Event.writeAnalog 14 motorspeed,
     Event.writeDigital 15 0, Event.writeAnalog 16 0]
  else []

/-- `iBIT.Spin(spin_dir, speed)`. -/
def Spin (spin_dir speed : Int) : List Event :=
  let motorspeed := map_0_100_to_0_1023 speed
  if spin_dir = SPIN_LEFT then
    [Event.writeDigital 13 0, Event.writeAnalog 14 motorspeed,
     Event.writeDigital 15 0, Event.writeAnalog 16 motorspeed]
  else if spin_dir = SPIN_RIGHT then
    [Event.writeDigital 13 1, Event.writeAnalog 14 motorspeed,
     Event.writeDigital 15 1, Event.writeAnalog 16 motorspeed]
  else []

/-- `iBIT.MotorStop()`. -/
def MotorStop : List Event :=
  [Event.writeDigital 13 1, Event.writeAnalog 14 0,
   Event.writeDigital 15 1, Event.writeAnalog 16 0]

/-- `iBIT.setMotor(channel, direction, speed)`. -/
def setMotor (channel direction speed : Int) : List Event :=
  let motorspeed := map_0_100_to_0_1023 speed
  if channel = M1 ∧ direction = FORWARD then
    [Event.writeDigital 13 1, Event.writeAnalog 14 motorspeed]
  else if channel = M2 ∧ direction = FORWARD then
    [Event.writeDigital 15 0, Event.writeAnalog 16 motorspeed]
  else if channel = M1 ∧ direction = BACKWARD then
    [Event.writeDigital 13 0, Event.writeAnalog 14 motorspeed]
  else if channel = M2 ∧ direction = BACKWARD then
    [Event.writeDigital 15 1, Event.writeAnalog 16 motorspeed]
  else []

/-- The local `__cmd_table = [ADC0, ..., ADC7]` of `iBIT.ReadADC`. -/
def cmd_table : List Int := [ADC0, ADC1, ADC2, ADC3, ADC4, ADC5, ADC6, ADC7]

/-- `iBIT.ReadADC(ch_or_cmd)` at configured I2C address `addr`.  The two
bytes the I2C read delivers are the parameters `b0` and `b1`.  Returns the
list of I2C transactions performed together with the Python return value:
`(data[0] << 8) | data[1]` on a valid input, `-1` otherwise. -/
def ReadADC (addr : Nat) (ch_or_cmd : Int) (b0 b1 : Nat) : List Event × Int :=
  let x := ch_or_cmd
  if 0 ≤ x ∧ x ≤ 7 then
    let cmd := cmd_table.getD x.toNat 0
    ([Event.i2cWrite addr [cmd] false, Event.i2cRead addr 2 false],
     (((b0 <<< 8) ||| b1 : Nat) : Int))
  else if x ∈ cmd_table then
    ([Event.i2cWrite addr [x] false, Event.i2cRead addr 2 false],
     (((b0 <<< 8) ||| b1 : Nat) : Int))
  else
    ([], -1)

/-- `iBIT.Servo(which, degree)`: dispatch to servo pin 8 (SV1) or
pin 12 (SV2) with the hard-coded 500/2500 µs pulse bounds. -/
def Servo (which degree : Int) : List Event :=
  if which = SV1 then servo_write_deg 8 degree 500 2500
  else if which = SV2 then servo_write_deg 12 degree 500 2500
  else []

/-- `iBIT.ServoStop(which)`. -/
def ServoStop (which : Int) : List Event :=
  if which = SV1 then servo_stop 8
  else if which = SV2 then servo_stop 12
  else []

end iBIT

/-- The servo pulse width in microseconds as the spec states it:
`500 + (2500-500) * clamp(d,0,180) // 180`. -/
def pulse_us (deg : Int) : Int :=
  500 + (2000 * iBIT.clamp deg 0 180).fdiv 180

/-- The servo duty as the spec states it:
`floor(pulse_us * 1023 / 20000)` clamped to `[0,1023]`. -/
def degreesToDuty (deg : Int) : Int :=
  iBIT.clamp ((pulse_us deg * 1023).fdiv 20000) 0 1023

/-- The set of inputs `iBIT.ReadADC` accepts: a channel number 0..7 or a
byte from the command table. -/
def validADCInput (x : Int) : Prop :=
  (0 ≤ x ∧ x ≤ 7) ∨ x ∈ iBIT.cmd_table

instance (x : Int) : Decidable (validADCInput x) := by
  unfold validADCInput
  infer_instance

/-- The last digital level written to pin `p` by the events, together with
the last analog duty and PWM period per pin, seen as a pin state.  Fields
cover exactly the pins the library drives. -/
structure PinState where
  d8 : Nat
  d12 : Nat
  d13 : Nat
  d15 : Nat
  a8 : Int
  a12 : Int
  a14 : Int
  a16 : Int
  period8 : Nat
  period12 : Nat
deriving DecidableEq

/-- Interpret one event as a pin-state update. -/
def applyEvent (s : PinState) (e : Event) : PinState :=
  match e with
  | Event.writeDigital 8 v => { s with d8 := v }
  | Event.writeDigital 12 v => { s with d12 := v }
  | Event.writeDigital 13 v => { s with d13 := v }
  | Event.writeDigital 15 v => { s with d15 := v }
  | Event.writeAnalog 8 v => { s with a8 := v }
  | Event.writeAnalog 12 v => { s with a12 := v }
  | Event.writeAnalog 14 v => { s with a14 := v }
  | Event.writeAnalog 16 v => { s with a16 := v }
  | Event.setAnalogPeriodUs 8 us => { s with period8 := us }
  | Event.setAnalogPeriodUs 12 us => { s with period12 := us }
  | _ => s

/-- Interpret a list of events left to right. -/
def applyEvents (s : PinState) (es : List Event) : PinState :=
  es.foldl applyEvent s

/-- C1: every speed argument of `Motor`, `Motor2`, `Turn`, `Spin` and
`setMotor` is written to the corresponding motor speed pin as the duty
`speedToDuty s = floor(clamp(s,0,100) * 1023 / 100)`; moreover
`speedToDuty 0 = 0`, `speedToDuty 100 = 1023`, `speedToDuty 50 = 511`,
and outside `[0,100]` the duty equals that of the nearest boundary. -/
theorem c1_speed_to_duty (s s1 s2 : Int) :
    iBIT.Motor FORWARD s =
      [Event.writeDigital 13 1, Event.writeAnalog 14 (iBIT.speedToDuty s),
       Event.writeDigital 15 0, Event.writeAnalog 16 (iBIT.speedToDuty s)] ∧
    iBIT.Motor BACKWARD s =
      [Event.writeDigital 13 0, Event.writeAnalog 14 (iBIT.speedToDuty s),
       Event.writeDigital 15 1, Event.writeAnalog 16 (iBIT.speedToDuty s)] ∧
    iBIT.Motor2 FORWARD s1 s2 =
      [Event.writeDigital 13 1, Event.writeAnalog 14 (iBIT.speedToDuty s1),
       Event.writeDigital 15 0, Event.writeAnalog 16 (iBIT.speedToDuty s2)] ∧
    iBIT.Motor2 BACKWARD s1 s2 =
      [Event.writeDigital 13 0, Event.writeAnalog 14 (iBIT.speedToDuty s1),
       Event.writeDigital 15 1, Event.writeAnalog 16 (iBIT.speedToDuty s2)] ∧
    iBIT.Turn TURN_LEFT s =
      [Event.writeDigital 13 1, Event.writeAnalog 14 0,
       Event.writeDigital 15 0, Event.writeAnalog 16 (iBIT.speedToDuty s)] ∧
    iBIT.Turn TURN_RIGHT s =
      [Event.writeDigital 13 1, Event.writeAnalog 14 (iBIT.speedToDuty s),
       Event.writeDigital 15 0, Event.writeAnalog 16 0] ∧
    iBIT.Spin SPIN_LEFT s =
      [Event.writeDigital 13 0, Event.writeAnalog 14 (iBIT.speedToDuty s),
       Event.writeDigital 15 0, Event.writeAnalog 16 (iBIT.speedToDuty s)] ∧
    iBIT.Spin SPIN_RIGHT s =
      [Event.writeDigital 13 1, Event.writeAnalog 14 (iBIT.speedToDuty s),
       Event.writeDigital 15 1, Event.writeAnalog 16 (iBIT.speedToDuty s)] ∧
    iBIT.setMotor M1 FORWARD s =
      [Event.writeDigital 13 1, Event.writeAnalog 14 (iBIT.speedToDuty s)] ∧
    iBIT.setMotor M2 FORWARD s =
      [Event.writeDigital 15 0, Event.writeAnalog 16 (iBIT.speedToDuty s)] ∧
    iBIT.setMotor M1 BACKWARD s =
      [Event.writeDigital 13 0, Event.writeAnalog 14 (iBIT.speedToDuty s)] ∧
    iBIT.setMotor M2 BACKWARD s =
      [Event.writeDigital 15 1, Event.writeAnalog 16 (iBIT.speedToDuty s)] ∧
    iBIT.speedToDuty 0 = 0 ∧
    iBIT.speedToDuty 100 = 1023 ∧
    iBIT.speedToDuty 50 = 511 ∧
    (s < 0 → iBIT.speedToDuty s = iBIT.speedToDuty 0) ∧
    (100 < s → iBIT.speedToDuty s = iBIT.speedToDuty 100) := by
  refine ⟨rfl, rfl, rfl, rfl, rfl, rfl, rfl, rfl, rfl, rfl, rfl, rfl,
    by decide, by decide, by decide, ?_, ?_⟩
  · intro h
    simp [iBIT.speedToDuty, iBIT.map_0_100_to_0_1023, iBIT.clamp, h]
  · intro h
    have h0 : ¬ (s < 0) := by omega
    have h1 : s > 100 := h
    simp [iBIT.speedToDuty, iBIT.map_0_100_to_0_1023, iBIT.clamp, h0, h1]

/-- C1 witness: the out-of-range conjuncts of `c1_speed_to_duty` applied
at concrete inputs −7 and 123. -/
theorem c1_speed_to_duty_witness :
    iBIT.speedToDuty (-7) = iBIT.speedToDuty 0 ∧
    iBIT.speedToDuty 123 = iBIT.speedToDuty 100 := by
  constructor
  · have h := c1_speed_to_duty (-7) 0 0
    exact h.2.2.2.2.2.2.2.2.2.2.2.2.2.2.2.1 (by decide)
  · have h := c1_speed_to_duty 123 0 0
    exact h.2.2.2.2.2.2.2.2.2.2.2.2.2.2.2.2 (by decide)

/-- C2: `Servo` sets a 20 ms PWM period and writes the duty
`degreesToDuty d`, obtained from the pulse width
`pulse_us d = 500 + (2500-500) * clamp(d,0,180) // 180` as
`floor(pulse_us * 1023 / 20000)` clamped to `[0,1023]`; moreover
`degreesToDuty 0 = 25`, `degreesToDuty 180 = 127`, and outside `[0,180]`
the pulse width equals that of the nearest boundary. -/
theorem c2_servo (d : Int) :
    iBIT.Servo SV1 d =
      [Event.setAnalogPeriodUs 8 20000, Event.writeAnalog 8 (degreesToDuty d)] ∧
    iBIT.Servo SV2 d =
      [Event.setAnalogPeriodUs 12 20000, Event.writeAnalog 12 (degreesToDuty d)] ∧
    degreesToDuty 0 = 25 ∧
    degreesToDuty 180 = 127 ∧
    (d < 0 → pulse_us d = pulse_us 0) ∧
    (180 < d → pulse_us d = pulse_us 180) := by
  refine ⟨rfl, rfl, by decide, by decide, ?_, ?_⟩
  · intro h
    simp [pulse_us, iBIT.clamp, h]
  · intro h
    have h0 : ¬ (d < 0) := by omega
    have h1 : d > 180 := h
    simp [pulse_us, iBIT.clamp, h0, h1]

/-- C2 witness: the out-of-range conjuncts of `c2_servo` applied at
concrete inputs −30 and 200. -/
theorem c2_servo_witness :
    pulse_us (-30) = pulse_us 0 ∧ pulse_us 200 = pulse_us 180 := by
  constructor
  · exact (c2_servo (-30)).2.2.2.2.1 (by decide)
  · exact (c2_servo 200).2.2.2.2.2 (by decide)

/-- C3: on any input that is neither a channel number in `[0,7]` nor one
of the eight command bytes, `ReadADC` performs no I2C transaction and
returns −1, whatever the configured address and whatever bytes the bus
would have delivered. -/
theorem c3_readadc_invalid (addr : Nat) (x : Int) (b0 b1 : Nat)
    (h1 : ¬ (0 ≤ x ∧ x ≤ 7)) (h2 : x ∉ iBIT.cmd_table) :
    iBIT.ReadADC addr x b0 b1 = ([], -1) := by
  unfold iBIT.ReadADC
  simp [h1, h2]

/-- C3 witness: `ReadADC 999` at the default address returns −1 with no
I2C transaction. -/
theorem c3_readadc_invalid_witness :
    iBIT.ReadADC IBIT_V2 999 0 0 = ([], -1) :=
  c3_readadc_invalid IBIT_V2 999 0 0 (by decide) (by decide)

/-- C4: on a valid input, `ReadADC` writes exactly one command byte to the
configured address without repeated start, then reads exactly 2 bytes from
the same address without repeated start, and returns
`(first_byte <<< 8) ||| second_byte`. -/
theorem c4_readadc_valid (addr : Nat) (x : Int) (b0 b1 : Nat)
    (h : (0 ≤ x ∧ x ≤ 7) ∨ x ∈ iBIT.cmd_table) :
    ∃ cmd : Int,
      iBIT.ReadADC addr x b0 b1 =
        ([Event.i2cWrite addr [cmd] false, Event.i2cRead addr 2 false],
         (((b0 <<< 8) ||| b1 : Nat) : Int)) := by
  unfold iBIT.ReadADC
  by_cases hch : 0 ≤ x ∧ x ≤ 7
  · exact ⟨iBIT.cmd_table.getD x.toNat 0, by simp [hch]⟩
  · have hmem : x ∈ iBIT.cmd_table := h.resolve_left hch
    exact ⟨x, by simp [hch, hmem]⟩

/-- C4 witness: `c4_readadc_valid` applied at channel 3 with delivered
bytes 1 and 2. -/
theorem c4_readadc_valid_witness :
    ∃ cmd : Int,
      iBIT.ReadADC IBIT_V2 3 1 2 =
        ([Event.i2cWrite IBIT_V2 [cmd] false, Event.i2cRead IBIT_V2 2 false],
         (((1 <<< 8) ||| 2 : Nat) : Int)) :=
  c4_readadc_valid IBIT_V2 3 1 2 (Or.inl (by decide))

/-- C5: `MotorStop` writes digital high to both direction pins 13 and 15
and analog duty 0 to both speed pins 14 and 16, so from every prior pin
state it reaches the same high/high, zero/zero safe state. -/
theorem c5_motor_stop (s : PinState) :
    iBIT.MotorStop =
      [Event.writeDigital 13 1, Event.writeAnalog 14 0,
       Event.writeDigital 15 1, Event.writeAnalog 16 0] ∧
    applyEvents s iBIT.MotorStop =
      { s with d13 := 1, d15 := 1, a14 := 0, a16 := 0 } :=
  ⟨rfl, rfl⟩

/-- C6 counterexample: `Motor FORWARD 50` writes digital 1 to pin 13 but
digital 0 to pin 15, so the two direction pins do not receive the same
(high) level as the claim states. -/
theorem c6_counterexample :
    iBIT.Motor FORWARD 50 =
      [Event.writeDigital 13 1, Event.writeAnalog 14 511,
       Event.writeDigital 15 0, Event.writeAnalog 16 511] ∧
    Event.writeDigital 15 1 ∉ iBIT.Motor FORWARD 50 := by
  decide

/-- C6 amended: for every speed, `Motor FORWARD` writes high to pin 13 and
low to pin 15, and `Motor BACKWARD` writes low to pin 13 and high to
pin 15 — the two direction pins always receive opposite levels, and
swapping the direction inverts both. -/
theorem c6_amended (s : Int) :
    iBIT.Motor FORWARD s =
      [Event.writeDigital 13 1, Event.writeAnalog 14 (iBIT.speedToDuty s),
       Event.writeDigital 15 0, Event.writeAnalog 16 (iBIT.speedToDuty s)] ∧
    iBIT.Motor BACKWARD s =
      [Event.writeDigital 13 0, Event.writeAnalog 14 (iBIT.speedToDuty s),
       Event.writeDigital 15 1, Event.writeAnalog 16 (iBIT.speedToDuty s)] :=
  ⟨rfl, rfl⟩

/-- C7 counterexample: at speed 50, `Spin` writes the same digital level
to both direction pins for BOTH spin directions (0/0 for `SPIN_LEFT`,
1/1 for `SPIN_RIGHT`); no spin direction produces opposite levels. -/
theorem c7_counterexample :
    iBIT.Spin SPIN_LEFT 50 =
      [Event.writeDigital 13 0, Event.writeAnalog 14 511,
       Event.writeDigital 15 0, Event.writeAnalog 16 511] ∧
    iBIT.Spin SPIN_RIGHT 50 =
      [Event.writeDigital 13 1, Event.writeAnalog 14 511,
       Event.writeDigital 15 1, Event.writeAnalog 16 511] ∧
    Event.writeDigital 15 1 ∉ iBIT.Spin SPIN_LEFT 50 ∧
    Event.writeDigital 15 0 ∉ iBIT.Spin SPIN_RIGHT 50 := by
  decide

/-- C7 amended: for every speed, `Spin` writes the same clamped duty to
both motor speed pins and the same digital level to both direction pins:
low/low for `SPIN_LEFT`, high/high for `SPIN_RIGHT`. -/
theorem c7_amended (s : Int) :
    iBIT.Spin SPIN_LEFT s =
      [Event.writeDigital 13 0, Event.writeAnalog 14 (iBIT.speedToDuty s),
       Event.writeDigital 15 0, Event.writeAnalog 16 (iBIT.speedToDuty s)] ∧
    iBIT.Spin SPIN_RIGHT s =
      [Event.writeDigital 13 1, Event.writeAnalog 14 (iBIT.speedToDuty s),
       Event.writeDigital 15 1, Event.writeAnalog 16 (iBIT.speedToDuty s)] :=
  ⟨rfl, rfl⟩

/-- C8: on an unrecognised direction, turn/spin selector, servo selector
or channel-direction combination, each operation performs no pin write at
all: it returns the empty event list. -/
theorem c8_invalid_noop (d ch dir s s1 s2 : Int) :
    (d ≠ FORWARD → d ≠ BACKWARD → iBIT.Motor d s = []) ∧
    (d ≠ FORWARD → d ≠ BACKWARD → iBIT.Motor2 d s1 s2 = []) ∧
    (d ≠ TURN_LEFT → d ≠ TURN_RIGHT → iBIT.Turn d s = []) ∧
    (d ≠ SPIN_LEFT → d ≠ SPIN_RIGHT → iBIT.Spin d s = []) ∧
    (d ≠ SV1 → d ≠ SV2 → iBIT.Servo d s = []) ∧
    (d ≠ SV1 → d ≠ SV2 → iBIT.ServoStop d = []) ∧
    (¬ (ch = M1 ∧ dir = FORWARD) → ¬ (ch = M2 ∧ dir = FORWARD) →
     ¬ (ch = M1 ∧ dir = BACKWARD) → ¬ (ch = M2 ∧ dir = BACKWARD) →
     iBIT.setMotor ch dir s = []) := by
  refine ⟨?_, ?_, ?_, ?_, ?_, ?_, ?_⟩
  · intro h1 h2
    simp [iBIT.Motor, h1, h2]
  · intro h1 h2
    simp [iBIT.Motor2, h1, h2]
  · intro h1 h2
    simp [iBIT.Turn, h1, h2]
  · intro h1 h2
    simp [iBIT.Spin, h1, h2]
  · intro h1 h2
    simp [iBIT.Servo, h1, h2]
  · intro h1 h2
    simp [iBIT.ServoStop, h1, h2]
  · intro h1 h2 h3 h4
    simp [iBIT.setMotor, h1, h2, h3, h4]

/-- C8 witness: `c8_invalid_noop` at the concrete invalid direction 2 and
invalid channel/direction pair (5, 7). -/
theorem c8_invalid_noop_witness :
    iBIT.Motor 2 50 = [] ∧ iBIT.Motor2 2 60 70 = [] ∧
    iBIT.Turn 2 50 = [] ∧ iBIT.Spin 2 50 = [] ∧
    iBIT.Servo 2 50 = [] ∧ iBIT.ServoStop 2 = [] ∧
    iBIT.setMotor 5 7 50 = [] := by
  have h := c8_invalid_noop 2 5 7 50 60 70
  exact ⟨h.1 (by decide) (by decide), h.2.1 (by decide) (by decide),
    h.2.2.1 (by decide) (by decide), h.2.2.2.1 (by decide) (by decide),
    h.2.2.2.2.1 (by decide) (by decide), h.2.2.2.2.2.1 (by decide) (by decide),
    h.2.2.2.2.2.2 (by decide) (by decide) (by decide) (by decide)⟩

/-- C9: for every channel number `x` in 0..7, `ReadADC x` performs the
same I2C transactions (in particular writes the same command byte) and
returns the same value as `ReadADC` applied to the corresponding entry of
the command table. -/
theorem c9_channel_matches_command (addr : Nat) (x : Int) (b0 b1 : Nat)
    (h0 : 0 ≤ x) (h7 : x ≤ 7) :
    iBIT.ReadADC addr x b0 b1 =
      iBIT.ReadADC addr (iBIT.cmd_table.getD x.toNat 0) b0 b1 := by
  interval_cases x <;> rfl

/-- C9 witness: `c9_channel_matches_command` at channel 5. -/
theorem c9_channel_matches_command_witness :
    iBIT.ReadADC IBIT_V2 5 9 9 =
      iBIT.ReadADC IBIT_V2 (iBIT.cmd_table.getD (Int.toNat 5) 0) 9 9 :=
  c9_channel_matches_command IBIT_V2 5 9 9 (by decide) (by decide)

/-- C10: with both delivered bytes below 256, `ReadADC` returns a value in
`[0, 65535]` on every valid input, and returns −1 exactly on the invalid
inputs — the sentinel is never confused with a genuine reading. -/
theorem c10_sentinel_distinct (addr : Nat) (x : Int) (b0 b1 : Nat)
    (hb0 : b0 < 256) (hb1 : b1 < 256) :
    (validADCInput x →
      0 ≤ (iBIT.ReadADC addr x b0 b1).2 ∧
      (iBIT.ReadADC addr x b0 b1).2 ≤ 65535) ∧
    ((iBIT.ReadADC addr x b0 b1).2 = -1 ↔ ¬ validADCInput x) := by
  have hup : ((b0 <<< 8) ||| b1 : Nat) < 65536 := by
    have h0 : b0 < 2 ^ 8 := hb0
    have h1 : b1 < 2 ^ 8 := hb1
    have h2 : b0 <<< 8 ||| b1 < 2 ^ (8 + 8) := Nat.append_lt h1 h0
    omega
  have hvalid : validADCInput x →
      (iBIT.ReadADC addr x b0 b1).2 = (((b0 <<< 8) ||| b1 : Nat) : Int) := by
    intro hv
    unfold iBIT.ReadADC
    rcases hv with hch | hmem
    · simp [hch]
    · by_cases hch : 0 ≤ x ∧ x ≤ 7
      · simp [hch]
      · simp [hch, hmem]
  have hinvalid : ¬ validADCInput x → (iBIT.ReadADC addr x b0 b1).2 = -1 := by
    intro hv
    have hch : ¬ (0 ≤ x ∧ x ≤ 7) := fun hc => hv (Or.inl hc)
    have hmem : x ∉ iBIT.cmd_table := fun hm => hv (Or.inr hm)
    unfold iBIT.ReadADC
    simp [hch, hmem]
  constructor
  · intro hv
    rw [hvalid hv]
    constructor
    · exact Int.natCast_nonneg _
    · exact_mod_cast Nat.lt_succ_iff.mp hup
  · constructor
    · intro heq
      intro hv
      rw [hvalid hv] at heq
      omega
    · exact hinvalid

/-- C10 witness: `c10_sentinel_distinct` at channel 3 with both delivered
bytes equal to 255. -/
theorem c10_sentinel_distinct_witness :
    (validADCInput 3 →
      0 ≤ (iBIT.ReadADC IBIT_V2 3 255 255).2 ∧
      (iBIT.ReadADC IBIT_V2 3 255 255).2 ≤ 65535) ∧
    ((iBIT.ReadADC IBIT_V2 3 255 255).2 = -1 ↔ ¬ validADCInput 3) :=
  c10_sentinel_distinct IBIT_V2 3 255 255 (by decide) (by decide)
